import Mathlib

/-!
Verification development for the AI-description-generator backend.

Shallow embedding of the code under `src/`:
* `backend/src/services/openaiService.ts` — `OpenAIService.generateDescription`,
  `batchGenerateDescriptions`, `parseResponse`, `calculateCost`;
* `backend/src/services/stripeService.ts` / `shopifyService.ts` — `verifyWebhook`;
* `backend/src/middleware/errorHandler.ts` — `errorHandler`;
* `backend/src/middleware/auth.ts` — `requireFeature`;
* `backend/src/config/redis.ts` — `rateLimiter.check`;
* `backend/src/config/index.ts` — the static plan table.

External effects (the OpenAI completion call, Redis, the Stripe SDK signature
check, the HMAC digest, the clock) are passed in as explicit parameters, so that
every definition is an executable pure function of its inputs.
-/

/-- JavaScript whitespace class `\s` (the ASCII part, which is all the regexes
in `parseResponse` are ever applied to by the surrounding code's markers). -/
def isJsSpace (c : Char) : Bool :=
  c = ' ' || c = '\t' || c = '\n' || c = '\r' || c = '\x0B' || c = '\x0C'

/-- Strip a literal sequence of characters from the front of a list, returning
the remainder on success. -/
def dropPfx : List Char → List Char → Option (List Char)
  | [], l => some l
  | _ :: _, [] => none
  | p :: ps, c :: cs => if p = c then dropPfx ps cs else none

/-- The characters after the last newline of a list, when it has one. -/
def afterLastNewline : List Char → Option (List Char)
  | [] => none
  | c :: cs =>
    match afterLastNewline cs with
    | some r => some r
    | none => if c = '\n' then some cs else none

/-- Semantics of the regex fragment `\s*\n` applied greedily at the current
position: it succeeds iff the leading whitespace run contains a newline, and
consumes through the last newline of that run. -/
def matchWsThenNewline (l : List Char) : Option (List Char) :=
  match afterLastNewline (l.takeWhile isJsSpace) with
  | some r => some (r ++ l.dropWhile isJsSpace)
  | none => none

/-- Semantics of the lazy capture `(.*?)(?=\n\*\*|$)` under the `/s` flag: the
shortest prefix ending at the first `"\n**"` boundary, or the whole rest of the
input when no boundary occurs. -/
def captureUntilBoundary : List Char → List Char
  | [] => []
  | '\n' :: '*' :: '*' :: _ => []
  | c :: cs => c :: captureUntilBoundary cs

/-- Semantics of `content.match(/LABEL\s*\n(.*?)(?=\n\*\*|$)/s)` for a literal
label: scan left to right for an occurrence of the label followed by a
`\s*\n` match, and return the lazy capture after it. -/
def findSection (label : List Char) : List Char → Option (List Char)
  | [] => none
  | c :: cs =>
    match dropPfx label (c :: cs) with
    | some rest =>
      match matchWsThenNewline rest with
      | some body => some (captureUntilBoundary body)
      | none => findSection label cs
    | none => findSection label cs

/-- Value of a nonempty run of decimal digits, as `parseInt` reads it. -/
def digitsToNat (ds : List Char) : Nat :=
  ds.foldl (fun n c => n * 10 + (c.toNat - '0'.toNat)) 0

/-- Semantics of `content.match(/\*\*SEO Score:\*\*\s*(\d+)/)` followed by
`parseInt` on the capture: after the label and a greedy whitespace run there
must be at least one digit. -/
def findSeoScore (label : List Char) : List Char → Option Nat
  | [] => none
  | c :: cs =>
    match dropPfx label (c :: cs) with
    | some rest =>
      let digits := (rest.dropWhile isJsSpace).takeWhile (fun d => d.isDigit)
      if digits.isEmpty then findSeoScore label cs else some (digitsToNat digits)
    | none => findSeoScore label cs

/-- `\*\*Product Description:\*\*` literal. -/
def descLabel : List Char := "**Product Description:**".toList

/-- `\*\*Keywords Used:\*\*` literal. -/
def kwLabel : List Char := "**Keywords Used:**".toList

/-- `\*\*SEO Score:\*\*` literal. -/
def seoLabel : List Char := "**SEO Score:**".toList

/-- `\*\*Meta Description:\*\*` literal. -/
def metaLabel : List Char := "**Meta Description:**".toList

/-- `\*\*Title Tag:\*\*` literal. -/
def titleLabel : List Char := "**Title Tag:**".toList

/-- Number of maximal whitespace runs in a character list. -/
def countWsRuns : Bool → List Char → Nat
  | _, [] => 0
  | inRun, c :: cs =>
    if isJsSpace c then (if inRun then countWsRuns true cs else 1 + countWsRuns true cs)
    else countWsRuns false cs

/-- `s.split(/\s+/).length` in JavaScript: one field more than the number of
maximal whitespace runs (leading/trailing runs contribute empty fields). -/
def jsSplitWsLength (s : String) : Nat := countWsRuns false s.toList + 1

/-- JavaScript `String.prototype.trim`: strip leading and trailing `\s`-class
characters. -/
def jsTrim (s : String) : String :=
  String.mk (((s.toList.dropWhile isJsSpace).reverse.dropWhile isJsSpace).reverse)

/-- JavaScript `s.split(',')`: split at every comma, keeping empty pieces. -/
def splitOnComma : List Char → List (List Char)
  | [] => [[]]
  | c :: cs =>
    match splitOnComma cs with
    | [] => [[]]
    | p :: ps => if c = ',' then [] :: p :: ps else (c :: p) :: ps

/-- `GenerationOptions` (openaiService.ts): every field is optional. -/
structure GenerationOptions where
  tone : Option String := none
  language : Option String := none
  keywords : Option (List String) := none
  wordCount : Option Nat := none
  seoOptimization : Option Bool := none
  includeFeatures : Option Bool := none
  includeBenefits : Option Bool := none
  customPrompt : Option String := none
deriving DecidableEq

/-- `GeneratedDescription` (openaiService.ts). `parseResponse` always supplies
the keyword list, so it is total here; the scalar extras stay optional. -/
structure GeneratedDescription where
  content : String
  wordCount : Nat
  seoScore : Option Nat
  keywords : List String
  metaDescription : Option String
  titleTag : Option String
deriving DecidableEq

/-- `OpenAIService.parseResponse`: best-effort extraction of the labeled
sections out of the free-text completion. Each missing section falls back:
raw text for the content, `options.keywords || []` for the keywords, and
`undefined` for the scalar fields. -/
def parseResponse (content : String) (options : GenerationOptions) : GeneratedDescription :=
  let cl := content.toList
  let description :=
    match findSection descLabel cl with
    | some cap => jsTrim (String.mk cap)
    | none => content
  let keywords :=
    match findSection kwLabel cl with
    | some cap => (splitOnComma cap).map (fun k => jsTrim (String.mk k))
    | none => options.keywords.getD []
  { content := description
    wordCount := jsSplitWsLength description
    seoScore := findSeoScore seoLabel cl
    keywords := keywords
    metaDescription := (findSection metaLabel cl).map (fun cap => jsTrim (String.mk cap))
    titleTag := (findSection titleLabel cl).map (fun cap => jsTrim (String.mk cap)) }

/-- `ExternalServiceError` (errorHandler.ts): service tag, short message, and
the wrapped upstream error message when one is attached as details (the code
also records the product title in the details object; only the message part is
observable through the claims). -/
structure ExternalServiceError where
  service : String
  message : String
  detail : Option String
deriving DecidableEq

/-- The JS `Error.message` of an `ExternalServiceError`, as built by its
constructor: `` `${service} service error: ${message}` ``. -/
def ExternalServiceError.fullMessage (e : ExternalServiceError) : String :=
  e.service ++ " service error: " ++ e.message

/-- Product data as accepted by `generateDescription` /
`batchGenerateDescriptions` (the batch variant also carries an `id`). -/
structure Product where
  id : String
  title : String
  existingDescription : Option String := none
  vendor : Option String := none
  productType : Option String := none
  tags : Option (List String) := none
  images : Option (List String) := none
deriving DecidableEq

/-- Outcome of the single OpenAI chat-completion call issued by
`generateDescription`: either a response whose `choices[0]?.message?.content`
is the given optional string, or a thrown SDK error with an optional `code`. -/
inductive UpstreamOutcome where
  | response (content : Option String)
  | failure (code : Option String) (message : String)
deriving DecidableEq

/-- The JS falsiness test `!content` applied to
`completion.choices[0]?.message?.content?.trim()`. -/
def emptyContent : Option String → Bool
  | none => true
  | some s => jsTrim s = ""

/-- The error `generateDescription` raises when the upstream response has no
content: the inner `Error('No content generated from OpenAI')` carries no
`code`, so the catch block wraps it in the generic
`ExternalServiceError('OpenAI', 'Failed to generate description', ...)`. -/
def malformedResponseError : ExternalServiceError :=
  { service := "OpenAI"
    message := "Failed to generate description"
    detail := some "No content generated from OpenAI" }

/-- `OpenAIService.generateDescription`, with the completion call's outcome
passed in. The catch block maps SDK error codes to the three
`ExternalServiceError` variants of the contract. -/
def generateDescription (productData : Product) (options : GenerationOptions)
    (upstream : UpstreamOutcome) : Except ExternalServiceError GeneratedDescription :=
  match upstream with
  | .failure code msg =>
    if code = some "insufficient_quota" then
      .error { service := "OpenAI", message := "API quota exceeded", detail := some msg }
    else if code = some "rate_limit_exceeded" then
      .error { service := "OpenAI", message := "Rate limit exceeded", detail := some msg }
    else
      .error { service := "OpenAI", message := "Failed to generate description"
               detail := some msg }
  | .response c =>
    match c with
    | none => .error malformedResponseError
    | some s =>
      let content := jsTrim s
      if content = "" then .error malformedResponseError
      else
        let _ := productData
        .ok (parseResponse content options)

/-- One entry of `BatchGenerationResult.results`. -/
structure ItemResult where
  productId : String
  success : Bool
  description : Option GeneratedDescription
  error : Option String
deriving DecidableEq

/-- `BatchGenerationResult` (openaiService.ts); also serves as the mutable
state object that `batchGenerateDescriptions` updates in place. -/
structure BatchGenerationResult where
  total : Nat
  successful : Nat
  failed : Nat
  results : List ItemResult
deriving DecidableEq

/-- The per-item body of the `batch.map` closure: a successful generation is
recorded with the description, a thrown error is caught and recorded with the
error message. -/
def itemOutcome (gen : Product → Except ExternalServiceError GeneratedDescription)
    (product : Product) : ItemResult :=
  match gen product with
  | .ok d => { productId := product.id, success := true, description := some d, error := none }
  | .error e => { productId := product.id, success := false, description := none
                  error := some e.fullMessage }

/-- The counter update performed inside the closure: `results.successful++` on
success, `results.failed++` in the catch branch. -/
def stepItem (st : BatchGenerationResult) (r : ItemResult) : BatchGenerationResult :=
  if r.success then { st with successful := st.successful + 1 }
  else { st with failed := st.failed + 1 }

/-- States of the shared result object as the items of one chunk settle, and
the state after all of them have: each item bumps exactly one counter once. -/
def itemPhase : BatchGenerationResult → List ItemResult →
    List BatchGenerationResult × BatchGenerationResult
  | st, [] => ([], st)
  | st, r :: rs =>
    let st2 := stepItem st r
    let p := itemPhase st2 rs
    (st2 :: p.1, p.2)

/-- The append after `await Promise.all(batchPromises)`:
`results.results.push(...batchResults)` — the whole resolved chunk array at
once, in the chunk's input order. -/
def barrier (st : BatchGenerationResult) (recs : List ItemResult) : BatchGenerationResult :=
  { st with results := st.results ++ recs }

/-- The `for (let i = 0; i < products.length; i += batchSize)` slicing with
`batchSize = 5`: full slices of five followed by the final partial slice. -/
def chunksOf5 : List Product → List (List Product)
  | [] => []
  | a :: b :: c :: d :: e :: rest => [a, b, c, d, e] :: chunksOf5 rest
  | l => [l]

/-- The chunk loop of `batchGenerateDescriptions`: run a chunk's items, cross
the `Promise.all` barrier appending the chunk's result array, continue with the
remaining chunks. Returns the trace of intermediate states of the shared
result object together with the final state. -/
def runChunks (gen : Product → Except ExternalServiceError GeneratedDescription) :
    BatchGenerationResult → List (List Product) →
    List BatchGenerationResult × BatchGenerationResult
  | st, [] => ([], st)
  | st, chunk :: rest =>
    let recs := chunk.map (itemOutcome gen)
    let ip := itemPhase st recs
    let stB := barrier ip.2 recs
    let tail := runChunks gen stB rest
    (ip.1 ++ stB :: tail.1, tail.2)

/-- The result object as initialized at the top of `batchGenerateDescriptions`:
`total` fixed to the input length, both counters zero, no results yet. -/
def initialBatchState (products : List Product) : BatchGenerationResult :=
  { total := products.length, successful := 0, failed := 0, results := [] }

/-- `OpenAIService.batchGenerateDescriptions`, with the per-product generation
outcome given by `gen`. -/
def batchGenerateDescriptions
    (gen : Product → Except ExternalServiceError GeneratedDescription)
    (products : List Product) : BatchGenerationResult :=
  (runChunks gen (initialBatchState products) (chunksOf5 products)).2

/-- Every intermediate state of the shared result object during
`batchGenerateDescriptions` (after each counter increment and after each chunk
barrier). -/
def batchTrace (gen : Product → Except ExternalServiceError GeneratedDescription)
    (products : List Product) : List BatchGenerationResult :=
  (runChunks gen (initialBatchState products) (chunksOf5 products)).1

/-- Result of a JS bracket lookup on an object literal: an own data property,
a truthy member inherited from `Object.prototype` (a function, or the
prototype object itself for `__proto__`), or `undefined`. -/
inductive JsLookup (α : Type) where
  | own (v : α)
  | inherited
  | undefined
deriving DecidableEq

/-- The property names every object literal inherits from `Object.prototype`
(ECMA-262): reading any of them yields a truthy non-table value, so a
`table[key] || fallback` on such a key skips the fallback. -/
def objectProtoKeys : List String :=
  ["constructor", "hasOwnProperty", "isPrototypeOf", "propertyIsEnumerable",
   "toLocaleString", "toString", "valueOf", "__proto__", "__defineGetter__",
   "__defineSetter__", "__lookupGetter__", "__lookupSetter__"]

/-- The `pricing[model]` lookup of `OpenAIService.calculateCost`: the static
three-key table, then the `Object.prototype` chain, then `undefined`. Prices
are exact rationals (the claims are stated up to floating tolerance). -/
def openAIPricing (model : String) : JsLookup (ℚ × ℚ) :=
  if model = "gpt-4" then .own (3/100, 6/100)
  else if model = "gpt-4-turbo" then .own (1/100, 3/100)
  else if model = "gpt-3.5-turbo" then .own (1/1000, 2/1000)
  else if objectProtoKeys.contains model then .inherited
  else .undefined

/-- `Math.ceil` on an exact rational: the ceiling integer, computed as the
negated floor of the negation (`fdiv` is flooring integer division). -/
def jsMathCeil (q : ℚ) : ℤ := -((-q).num.fdiv ((-q).den : ℤ))

/-- `OpenAIService.calculateCost`: `pricing[model] || pricing['gpt-4']`, a
70/30 input/output split with `Math.ceil`, blended per 1000 tokens. Only an
`undefined` lookup (falsy) takes the `'gpt-4'` fallback; an inherited
`Object.prototype` member is truthy, is kept, and its `.input`/`.output` are
`undefined`, so the arithmetic yields `NaN` — modelled as `none`. -/
def calculateCost (tokenCount : ℚ) (model : String) : Option ℚ :=
  let modelPricing :=
    match openAIPricing model with
    | .undefined => openAIPricing "gpt-4"
    | r => r
  match modelPricing with
  | .own p =>
    let inputTokens : ℚ := (jsMathCeil (tokenCount * (7/10)) : ℤ)
    let outputTokens : ℚ := (jsMathCeil (tokenCount * (3/10)) : ℤ)
    some ((inputTokens * p.1 + outputTokens * p.2) / 1000)
  | _ => none

/-- A verified Stripe event (`Stripe.Event`), as far as the handlers read it. -/
structure StripeEvent where
  id : String
  type : String
  data : String
deriving DecidableEq

/-- The local Subscription mirror of the billing platform's state. -/
structure SubscriptionMirror where
  plan : String
  status : String
  stripeCustomerId : Option String
deriving DecidableEq

/-- `StripeService.verifyWebhook`: `stripe.webhooks.constructEvent(payload,
signature, secret)` returned on success, `null` when it throws. The SDK call
is passed in as `constructEvent`. -/
def stripeVerifyWebhook
    (constructEvent : String → String → String → Except String StripeEvent)
    (webhookSecret payload signature : String) : Option StripeEvent :=
  match constructEvent payload signature webhookSecret with
  | .ok event => some event
  | .error _ => none

/-- `ShopifyService.verifyWebhook`: base64 HMAC-SHA256 of the raw body under
the secret, compared against the signature header. The digest function is
passed in as `hmacSha256Base64 secret rawBody`. -/
def shopifyVerifyWebhook (hmacSha256Base64 : String → String → String)
    (rawBody signature secret : String) : Bool :=
  hmacSha256Base64 secret rawBody == signature

/-- Modelled from the spec: the webhook route handlers (`routes/webhooks`) are
not under `src/`; per the spec they are "signature-verified payloads that
update local Subscription/product mirrors; verification failure must reject
without mutating state". A verified event is applied to the mirror; a failed
verification returns the state untouched with the call rejected. -/
def handleStripeWebhook
    (constructEvent : String → String → String → Except String StripeEvent)
    (applyEvent : StripeEvent → SubscriptionMirror → SubscriptionMirror)
    (webhookSecret : String) (state : SubscriptionMirror)
    (payload signature : String) : SubscriptionMirror × Bool :=
  match stripeVerifyWebhook constructEvent webhookSecret payload signature with
  | some event => (applyEvent event state, true)
  | none => (state, false)

/-- Modelled from the spec: the store-platform webhook route handler is not
under `src/`; same contract as `handleStripeWebhook`, over the boolean HMAC
verifier. -/
def handleShopifyWebhook (hmacSha256Base64 : String → String → String)
    (applyPayload : String → SubscriptionMirror → SubscriptionMirror)
    (secret : String) (state : SubscriptionMirror)
    (rawBody signature : String) : SubscriptionMirror × Bool :=
  if shopifyVerifyWebhook hmacSha256Base64 rawBody signature secret then
    (applyPayload rawBody state, true)
  else (state, false)

/-- JS `a || b` on an optional number (`customError.statusCode || 500`):
`0` and `undefined` are falsy. -/
def jsOrNat (o : Option Nat) (d : Nat) : Nat :=
  match o with
  | some n => if n = 0 then d else n
  | none => d

/-- JS `a || b` on an optional string (`customError.code || 'INTERNAL_ERROR'`):
the empty string and `undefined` are falsy. -/
def jsOrStrOpt (o : Option String) (d : String) : String :=
  match o with
  | some s => if s = "" then d else s
  | none => d

/-- JS `a || b` on a string (`customError.message || 'Something went wrong'`). -/
def jsOrStr (s d : String) : String := if s = "" then d else s

/-- An error object as it reaches `errorHandler`: its own optional
`statusCode`/`code`/`details`/`stack`, its `name` and `message`, and the class
facts the handler branches on (`instanceof Prisma.PrismaClientKnownRequestError`
with its Prisma code and `meta.target`, `instanceof
PrismaClientValidationError`, `instanceof SyntaxError && 'body' in error`). -/
structure HandlerError where
  name : String
  message : String
  statusCode : Option Nat
  code : Option String
  details : Option String
  stack : Option String
  prismaKnownCode : Option String
  prismaMetaTarget : Option String
  prismaValidation : Bool
  syntaxWithBody : Bool
deriving DecidableEq

/-- The `customError` view the handler responds with: status, code, message and
details after the rewrite chain. -/
structure CustomErrorRec where
  statusCode : Option Nat
  code : Option String
  message : String
  details : Option String
deriving DecidableEq

/-- The rewrite chain of `errorHandler`: `customError` starts as the incoming
error and each recognizer (each testing the ORIGINAL error) overwrites it, in
source order — Prisma known-request codes, Prisma validation, the JWT names,
the `ValidationError`/`CastError` names, malformed-JSON syntax errors. -/
def customErrorOf (error : HandlerError) : CustomErrorRec :=
  let c0 : CustomErrorRec :=
    { statusCode := error.statusCode, code := error.code
      message := error.message, details := error.details }
  let c1 :=
    match error.prismaKnownCode with
    | some pc =>
      if pc = "P2002" then
        { statusCode := some 409, code := some "DUPLICATE_ERROR"
          message := "Unique constraint violation"
          details := some (error.prismaMetaTarget.getD "") }
      else if pc = "P2025" then
        { statusCode := some 404, code := some "NOT_FOUND_ERROR"
          message := "Record not found", details := none }
      else if pc = "P2003" then
        { statusCode := some 400, code := some "VALIDATION_ERROR"
          message := "Foreign key constraint violation", details := none }
      else if pc = "P2014" then
        { statusCode := some 400, code := some "VALIDATION_ERROR"
          message := "Required relation missing", details := none }
      else
        { statusCode := some 500, code := some "DATABASE_ERROR"
          message := "Database operation failed", details := none }
    | none => c0
  let c2 :=
    if error.prismaValidation then
      { statusCode := some 400, code := some "VALIDATION_ERROR"
        message := "Invalid data provided", details := none }
    else c1
  let c3 :=
    if error.name = "JsonWebTokenError" then
      { statusCode := some 401, code := some "AUTHENTICATION_ERROR"
        message := "Invalid token", details := none }
    else c2
  let c4 :=
    if error.name = "TokenExpiredError" then
      { statusCode := some 401, code := some "AUTHENTICATION_ERROR"
        message := "Token expired", details := none }
    else c3
  let c5 :=
    if error.name = "ValidationError" then
      { statusCode := some 400, code := some "VALIDATION_ERROR"
        message := error.message, details := none }
    else c4
  let c6 :=
    if error.name = "CastError" then
      { statusCode := some 400, code := some "VALIDATION_ERROR"
        message := "Invalid ID format", details := none }
    else c5
  if error.syntaxWithBody then
    { statusCode := some 400, code := some "VALIDATION_ERROR"
      message := "Invalid JSON format", details := none }
  else c6

/-- The request fields `errorHandler` reads while building the body. -/
structure ReqInfo where
  path : String
  method : String
  requestId : Option String
deriving DecidableEq

/-- `if (req.headers['x-request-id']) errorResponse.requestId = ...` — a
truthy (present, nonempty) header adds the key. -/
def reqIdPart (req : ReqInfo) : List (String × String) :=
  match req.requestId with
  | some rid => if rid = "" then [] else [("requestId", rid)]
  | none => []

/-- `if (customError.details) errorResponse.details = customError.details`. -/
def detailsPart (c : CustomErrorRec) : List (String × String) :=
  match c.details with
  | some d => [("details", d)]
  | none => []

/-- `if (NODE_ENV === 'development') errorResponse.stack = error.stack` — the
key survives serialization only when the stack is defined. -/
def stackPart (nodeEnv : String) (error : HandlerError) : List (String × String) :=
  if nodeEnv = "development" then
    match error.stack with
    | some s => [("stack", s)]
    | none => []
  else []

/-- The three status-specific `errorResponse.suggestion` assignments. -/
def suggPart (statusCode : Nat) : List (String × String) :=
  (if statusCode = 429 then [("suggestion", "Please try again after some time")] else []) ++
  (if statusCode = 403 then [("suggestion", "Check your permissions or upgrade your plan")] else []) ++
  (if statusCode = 404 then [("suggestion", "Verify the resource exists and the URL is correct")] else [])

/-- `errorHandler` (errorHandler.ts): HTTP status plus the JSON body as the
ordered key/value pairs the code assigns (a key is in the list exactly when
`res.json` would serialize it). `now` is `new Date().toISOString()`. -/
def errorHandler (nodeEnv now : String) (req : ReqInfo) (error : HandlerError) :
    Nat × List (String × String) :=
  let c := customErrorOf error
  let statusCode := jsOrNat c.statusCode 500
  let code := jsOrStrOpt c.code "INTERNAL_ERROR"
  let message := jsOrStr c.message "Something went wrong"
  let base := [("error", message), ("code", code), ("timestamp", now),
               ("path", req.path), ("method", req.method)]
  (statusCode,
    base ++ reqIdPart req ++ detailsPart c ++ stackPart nodeEnv error ++ suggPart statusCode)

/-- An error whose shape triggers none of `errorHandler`'s recognizers and that
carries no `statusCode`/`code` of its own. -/
def UnrecognizedError (e : HandlerError) : Prop :=
  e.prismaKnownCode = none ∧ e.prismaValidation = false ∧ e.syntaxWithBody = false ∧
  e.name ≠ "JsonWebTokenError" ∧ e.name ≠ "TokenExpiredError" ∧
  e.name ≠ "ValidationError" ∧ e.name ≠ "CastError" ∧
  e.statusCode = none ∧ e.code = none

/-- The authenticated user attached to the request by `authenticateToken`. -/
structure AuthUser where
  id : String
  email : String
  plan : String
  subscriptionStatus : String
deriving DecidableEq

/-- What a middleware does with the request: pass it on, answer with a status
and error code, or let an exception escape. -/
inductive MwOutcome where
  | next
  | respond (status : Nat) (code : String)
  | thrown (name : String)
deriving DecidableEq

/-- The `planFeatures[plan]` lookup inside `requireFeature`
(middleware/auth.ts): the static three-plan object literal, then the
`Object.prototype` chain, then `undefined`. -/
def planFeaturesTable (plan : String) : JsLookup (List String) :=
  if plan = "basic" then .own ["seoOptimization", "bulkGeneration"]
  else if plan = "pro" then
    .own ["seoOptimization", "bulkGeneration", "customTone", "multiLanguage"]
  else if plan = "enterprise" then
    .own ["seoOptimization", "bulkGeneration", "customTone", "multiLanguage",
          "customTraining", "apiAccess"]
  else if objectProtoKeys.contains plan then .inherited
  else .undefined

/-- `requireFeature(feature)` (middleware/auth.ts): 401 without a user,
otherwise `userFeatures = planFeatures[plan] || []` — only an `undefined`
lookup (falsy) is replaced by `[]`; an inherited `Object.prototype` member is
truthy and kept, and `userFeatures.includes(feature)` then throws a TypeError.
On a real feature list, 403 `FEATURE_NOT_AVAILABLE` when it lacks the feature,
`next()` otherwise. -/
def requireFeature (feature : String) (user : Option AuthUser) : MwOutcome :=
  match user with
  | none => .respond 401 "AUTH_REQUIRED"
  | some u =>
    match planFeaturesTable u.plan with
    | .own userFeatures =>
      if userFeatures.contains feature then .next
      else .respond 403 "FEATURE_NOT_AVAILABLE"
    | .undefined =>
      if ([] : List String).contains feature then .next
      else .respond 403 "FEATURE_NOT_AVAILABLE"
    | .inherited => .thrown "TypeError"

/-- The feature block of `config.plans.basic` (config/index.ts). The optional
enterprise-only keys are absent here. -/
structure PlanFeatureSet where
  products : Int
  descriptions : Int
  languages : Nat
  support : String
  customTone : Bool
  seoOptimization : Bool
  bulkGeneration : Bool
  customTraining : Option Bool
  apiAccess : Option Bool
deriving DecidableEq

/-- `config.plans.basic.features` (config/index.ts). -/
def configPlansBasicFeatures : PlanFeatureSet :=
  { products := 500, descriptions := 1000, languages := 1, support := "email"
    customTone := false, seoOptimization := true, bulkGeneration := false
    customTraining := none, apiAccess := none }

/-- The window-bucketed Redis key `` `${key}:${window}` `` built by
`rateLimiter.check`, with `window = Math.floor(now / windowSeconds)` and `now`
in seconds. -/
def rateLimiterRedisKey (key : String) (windowSeconds now : Nat) : String :=
  key ++ ":" ++ toString (now / windowSeconds)

/-- `rateLimiter.check` (config/redis.ts), with the two Redis calls' outcomes
passed in: the whole body is inside a try whose catch returns `true`
("Allow on error"), so a throw from `INCR` — or from the `EXPIRE` issued when
the counter is fresh — admits the request; otherwise the request is allowed
iff the incremented counter is within the limit. -/
def rateLimiterCheck (incrResult : Except String Int) (expireResult : Except String Bool)
    (limit : Int) : Bool :=
  match incrResult with
  | .error _ => true
  | .ok current =>
    if current = 1 then
      match expireResult with
      | .error _ => true
      | .ok _ => current ≤ limit
    else current ≤ limit

/-- Test fixture: a product. -/
def wProduct : Product := { id := "p1", title := "Shoe" }

/-- Test fixture: a second product. -/
def wProduct2 : Product := { id := "p2", title := "Hat" }

/-- Test fixture: a two-product batch input. -/
def wProducts2 : List Product := [wProduct, wProduct2]

/-- Test fixture: a generated description. -/
def wDesc : GeneratedDescription :=
  { content := "Nice shoe", wordCount := 2, seoScore := none, keywords := []
    metaDescription := none, titleTag := none }

/-- Test fixture: a rate-limit generation error. -/
def wErr : ExternalServiceError :=
  { service := "OpenAI", message := "Rate limit exceeded", detail := none }

/-- Test fixture: a generation oracle that always succeeds. -/
def wGenOk : Product → Except ExternalServiceError GeneratedDescription :=
  fun _ => .ok wDesc

/-- Test fixture: a generation oracle that fails exactly on product `p1`. -/
def wGenFailFirst : Product → Except ExternalServiceError GeneratedDescription :=
  fun p => if p.id = "p1" then .error wErr else .ok wDesc

/-- Test fixture: a Stripe `constructEvent` that always throws. -/
def wConstructEventFail : String → String → String → Except String StripeEvent :=
  fun _ _ _ => .error "signature mismatch"

/-- Test fixture: an event application that would overwrite the mirror. -/
def wApplyEvent : StripeEvent → SubscriptionMirror → SubscriptionMirror :=
  fun _ _ => { plan := "pro", status := "active", stripeCustomerId := some "cus_1" }

/-- Test fixture: a payload application that would overwrite the mirror. -/
def wApplyPayload : String → SubscriptionMirror → SubscriptionMirror :=
  fun _ _ => { plan := "pro", status := "active", stripeCustomerId := none }

/-- Test fixture: a local subscription mirror. -/
def wMirror : SubscriptionMirror := { plan := "basic", status := "active", stripeCustomerId := none }

/-- Test fixture: a deterministic stand-in digest function. -/
def wHmac : String → String → String := fun secret rawBody => secret ++ "|" ++ rawBody

/-- Test fixture: an authenticated basic-plan user. -/
def wBasicUser : AuthUser :=
  { id := "u1", email := "a@example.com", plan := "basic", subscriptionStatus := "active" }

/-- Test fixture: a user whose plan string is outside the table. -/
def wFreeUser : AuthUser :=
  { id := "u2", email := "b@example.com", plan := "free", subscriptionStatus := "active" }

/-- Test fixture: a user whose plan string collides with an inherited
`Object.prototype` property name. -/
def wProtoUser : AuthUser :=
  { id := "u3", email := "c@example.com", plan := "toString", subscriptionStatus := "active" }

/-- Test fixture: an unrecognized error reaching the handler. -/
def wPlainError : HandlerError :=
  { name := "Error", message := "boom", statusCode := none, code := none
    details := none, stack := some "trace", prismaKnownCode := none
    prismaMetaTarget := none, prismaValidation := false, syntaxWithBody := false }

/-- Test fixture: request info seen by the error handler. -/
def wReq : ReqInfo := { path := "/api/products", method := "GET", requestId := none }

/-- Test fixture: the state of the shared result object right after the first
item of `wProducts2` succeeds, before the chunk barrier. -/
def wTraceState : BatchGenerationResult :=
  { total := 2, successful := 1, failed := 0, results := [] }

/-! ## Helper lemmas -/

theorem jsMathCeil_intCast (n : ℤ) : jsMathCeil ((n : ℤ) : ℚ) = n := by
  simp [jsMathCeil]

theorem itemOutcome_productId (gen : Product → Except ExternalServiceError GeneratedDescription)
    (p : Product) : (itemOutcome gen p).productId = p.id := by
  unfold itemOutcome
  cases gen p <;> rfl

theorem chunksOf5_flatten : ∀ l : List Product, (chunksOf5 l).flatten = l
  | [] => by simp [chunksOf5]
  | [a] => by simp [chunksOf5]
  | [a, b] => by simp [chunksOf5]
  | [a, b, c] => by simp [chunksOf5]
  | [a, b, c, d] => by simp [chunksOf5]
  | a :: b :: c :: d :: e :: rest => by
    simp [chunksOf5, chunksOf5_flatten rest]

theorem stepItem_total (st : BatchGenerationResult) (r : ItemResult) :
    (stepItem st r).total = st.total := by
  unfold stepItem; split <;> rfl

theorem stepItem_results (st : BatchGenerationResult) (r : ItemResult) :
    (stepItem st r).results = st.results := by
  unfold stepItem; split <;> rfl

theorem stepItem_sum (st : BatchGenerationResult) (r : ItemResult) :
    (stepItem st r).successful + (stepItem st r).failed = st.successful + st.failed + 1 := by
  unfold stepItem; split <;> simp <;> omega

theorem itemPhase_fin : ∀ (recs : List ItemResult) (st : BatchGenerationResult),
    (itemPhase st recs).2.total = st.total ∧
    (itemPhase st recs).2.results = st.results ∧
    (itemPhase st recs).2.successful + (itemPhase st recs).2.failed
      = st.successful + st.failed + recs.length := by
  intro recs
  induction recs with
  | nil => intro st; simp [itemPhase]
  | cons r rs ih =>
    intro st
    have h := ih (stepItem st r)
    have h1 := stepItem_total st r
    have h2 := stepItem_results st r
    have h3 := stepItem_sum st r
    refine ⟨?_, ?_, ?_⟩
    · show (itemPhase (stepItem st r) rs).2.total = st.total
      rw [h.1, h1]
    · show (itemPhase (stepItem st r) rs).2.results = st.results
      rw [h.2.1, h2]
    · show (itemPhase (stepItem st r) rs).2.successful
          + (itemPhase (stepItem st r) rs).2.failed
          = st.successful + st.failed + (r :: rs).length
      have h4 := h.2.2
      simp only [List.length_cons]
      omega

theorem itemPhase_mids : ∀ (recs : List ItemResult) (st : BatchGenerationResult),
    ∀ s ∈ (itemPhase st recs).1,
      s.total = st.total ∧ s.results = st.results ∧
      s.successful + s.failed ≤ st.successful + st.failed + recs.length := by
  intro recs
  induction recs with
  | nil => intro st s hs; simp [itemPhase] at hs
  | cons r rs ih =>
    intro st s hs
    have hcons : (itemPhase st (r :: rs)).1
        = stepItem st r :: (itemPhase (stepItem st r) rs).1 := rfl
    rw [hcons, List.mem_cons] at hs
    have h1 := stepItem_total st r
    have h2 := stepItem_results st r
    have h3 := stepItem_sum st r
    rcases hs with rfl | hs
    · refine ⟨h1, h2, ?_⟩
      simp only [List.length_cons]
      omega
    · have h := ih (stepItem st r) s hs
      have h4 := h.2.2
      refine ⟨by rw [h.1, h1], by rw [h.2.1, h2], ?_⟩
      simp only [List.length_cons]
      omega

theorem barrier_fields (st : BatchGenerationResult) (recs : List ItemResult) :
    (barrier st recs).total = st.total ∧
    (barrier st recs).successful = st.successful ∧
    (barrier st recs).failed = st.failed ∧
    (barrier st recs).results = st.results ++ recs := by
  exact ⟨rfl, rfl, rfl, rfl⟩

theorem runChunks_fin
    (gen : Product → Except ExternalServiceError GeneratedDescription) :
    ∀ (chunks : List (List Product)) (st : BatchGenerationResult),
    (runChunks gen st chunks).2.total = st.total ∧
    (runChunks gen st chunks).2.successful + (runChunks gen st chunks).2.failed
      = st.successful + st.failed + chunks.flatten.length ∧
    (runChunks gen st chunks).2.results
      = st.results ++ chunks.flatten.map (itemOutcome gen) := by
  intro chunks
  induction chunks with
  | nil => intro st; simp [runChunks]
  | cons c cs ih =>
    intro st
    have hstep : (runChunks gen st (c :: cs)).2
        = (runChunks gen (barrier (itemPhase st (c.map (itemOutcome gen))).2
            (c.map (itemOutcome gen))) cs).2 := rfl
    have hip := itemPhase_fin (c.map (itemOutcome gen)) st
    have hb := barrier_fields (itemPhase st (c.map (itemOutcome gen))).2 (c.map (itemOutcome gen))
    have htail := ih (barrier (itemPhase st (c.map (itemOutcome gen))).2 (c.map (itemOutcome gen)))
    refine ⟨?_, ?_, ?_⟩
    · rw [hstep, htail.1, hb.1, hip.1]
    · rw [hstep, htail.2.1, hb.2.1, hb.2.2.1]
      have h1 := hip.2.2
      simp only [List.flatten_cons, List.length_append, List.length_map] at *
      omega
    · rw [hstep, htail.2.2, hb.2.2.2, hip.2.1]
      simp [List.map_append, List.append_assoc]

theorem runChunks_trace
    (gen : Product → Except ExternalServiceError GeneratedDescription) :
    ∀ (chunks : List (List Product)) (st : BatchGenerationResult),
    ∀ s ∈ (runChunks gen st chunks).1,
      s.total = st.total ∧
      s.successful + s.failed ≤ st.successful + st.failed + chunks.flatten.length := by
  intro chunks
  induction chunks with
  | nil => intro st s hs; simp [runChunks] at hs
  | cons c cs ih =>
    intro st s hs
    have hstep : (runChunks gen st (c :: cs)).1
        = (itemPhase st (c.map (itemOutcome gen))).1
          ++ barrier (itemPhase st (c.map (itemOutcome gen))).2 (c.map (itemOutcome gen))
          :: (runChunks gen (barrier (itemPhase st (c.map (itemOutcome gen))).2
               (c.map (itemOutcome gen))) cs).1 := rfl
    rw [hstep] at hs
    have hip := itemPhase_fin (c.map (itemOutcome gen)) st
    have hb := barrier_fields (itemPhase st (c.map (itemOutcome gen))).2 (c.map (itemOutcome gen))
    rw [List.mem_append, List.mem_cons] at hs
    have hlen : (c :: cs).flatten.length = c.length + cs.flatten.length := by
      simp [List.flatten_cons]
    rcases hs with hs | rfl | hs
    · have h := itemPhase_mids (c.map (itemOutcome gen)) st s hs
      have h4 := h.2.2
      simp only [List.length_map] at h4
      exact ⟨h.1, by omega⟩
    · have h1 := hip.2.2
      simp only [List.length_map] at h1
      refine ⟨by rw [hb.1, hip.1], ?_⟩
      rw [hb.2.1, hb.2.2.1]
      omega
    · have h := ih _ s hs
      have h1 := hip.2.2
      simp only [List.length_map] at h1
      refine ⟨by rw [h.1, hb.1, hip.1], ?_⟩
      have h4 := h.2
      rw [hb.2.1, hb.2.2.1] at h4
      omega

theorem batchResults_eq_map
    (gen : Product → Except ExternalServiceError GeneratedDescription)
    (products : List Product) :
    (batchGenerateDescriptions gen products).results = products.map (itemOutcome gen) := by
  have h := (runChunks_fin gen (chunksOf5 products) (initialBatchState products)).2.2
  unfold batchGenerateDescriptions
  rw [h, chunksOf5_flatten]
  rfl

/-! ## Lookup helper lemmas for the error-handler body -/

theorem lookup_append (k : String) (l1 l2 : List (String × String)) :
    (l1 ++ l2).lookup k =
      (match l1.lookup k with
       | some v => some v
       | none => l2.lookup k) := by
  induction l1 with
  | nil => simp [List.lookup]
  | cons p t ih =>
    obtain ⟨a, b⟩ := p
    cases hka : k == a <;> simp [List.lookup, hka, ih]

theorem reqIdPart_lookup_ne (req : ReqInfo) (k : String) (h : k ≠ "requestId") :
    (reqIdPart req).lookup k = none := by
  unfold reqIdPart
  have hb : (k == "requestId") = false := beq_eq_false_iff_ne.mpr h
  cases req.requestId with
  | none => rfl
  | some rid =>
    by_cases hr : rid = "" <;> simp [hr, List.lookup, hb]

theorem detailsPart_lookup (c : CustomErrorRec) :
    (detailsPart c).lookup "details" = c.details := by
  unfold detailsPart
  cases c.details <;> simp [List.lookup]

theorem detailsPart_lookup_ne (c : CustomErrorRec) (k : String) (h : k ≠ "details") :
    (detailsPart c).lookup k = none := by
  have hb : (k == "details") = false := beq_eq_false_iff_ne.mpr h
  unfold detailsPart
  cases c.details <;> simp [List.lookup, hb]

theorem stackPart_lookup (nodeEnv : String) (error : HandlerError) :
    (stackPart nodeEnv error).lookup "stack" =
      (if nodeEnv = "development" then error.stack else none) := by
  unfold stackPart
  by_cases hd : nodeEnv = "development" <;> simp [hd]
  cases error.stack <;> simp [List.lookup]

theorem stackPart_lookup_ne (nodeEnv : String) (error : HandlerError) (k : String)
    (h : k ≠ "stack") : (stackPart nodeEnv error).lookup k = none := by
  have hb : (k == "stack") = false := beq_eq_false_iff_ne.mpr h
  unfold stackPart
  by_cases hd : nodeEnv = "development" <;> simp [hd]
  cases error.stack <;> simp [List.lookup, hb, h]

theorem suggPart_lookup_ne (statusCode : Nat) (k : String) (h : k ≠ "suggestion") :
    (suggPart statusCode).lookup k = none := by
  have hb : (k == "suggestion") = false := beq_eq_false_iff_ne.mpr h
  unfold suggPart
  split <;> split <;> split <;> simp [List.lookup, hb]

/-! ## Claim theorems -/

/-- C1: for every input list and every per-item success/failure pattern, the
`BatchGenerationResult` maintained by `batchGenerateDescriptions` has `total`
fixed to the input length and satisfies `successful + failed ≤ total` at every
intermediate state; on return `successful + failed = total` and the results
list has exactly one outcome entry per input product. -/
theorem batchGenerate_counts_invariant
    (gen : Product → Except ExternalServiceError GeneratedDescription)
    (products : List Product) :
    (batchGenerateDescriptions gen products).total = products.length ∧
    (batchGenerateDescriptions gen products).successful
      + (batchGenerateDescriptions gen products).failed = products.length ∧
    (batchGenerateDescriptions gen products).results.length = products.length ∧
    ∀ s ∈ batchTrace gen products,
      s.total = products.length ∧ s.successful + s.failed ≤ products.length := by
  have hfin := runChunks_fin gen (chunksOf5 products) (initialBatchState products)
  have htr := runChunks_trace gen (chunksOf5 products) (initialBatchState products)
  have hj := chunksOf5_flatten products
  unfold batchGenerateDescriptions batchTrace
  refine ⟨?_, ?_, ?_, ?_⟩
  · rw [hfin.1]; rfl
  · have h := hfin.2.1
    rw [hj] at h
    have h0 : (initialBatchState products).successful = 0 := rfl
    have h1 : (initialBatchState products).failed = 0 := rfl
    omega
  · have h := hfin.2.2
    rw [hj] at h
    rw [h]
    have h0 : (initialBatchState products).results = [] := rfl
    rw [h0]
    simp
  · intro s hs
    have h := htr s hs
    have h2 := h.2
    rw [hj] at h2
    have h0 : (initialBatchState products).successful = 0 := rfl
    have h1 : (initialBatchState products).failed = 0 := rfl
    exact ⟨h.1, by omega⟩

/-- C1 witness: a concrete two-product batch with an all-success oracle,
checked at the final state and at the intermediate state after the first
item's counter increment. -/
theorem batchGenerate_counts_invariant_witness :
    ((batchGenerateDescriptions wGenOk wProducts2).successful
      + (batchGenerateDescriptions wGenOk wProducts2).failed = wProducts2.length) ∧
    (wTraceState.total = wProducts2.length ∧
      wTraceState.successful + wTraceState.failed ≤ wProducts2.length) := by
  have h := batchGenerate_counts_invariant wGenOk wProducts2
  exact ⟨h.2.1, h.2.2.2 wTraceState (by decide)⟩

/-- C2: whenever the upstream completion response carries no content (absent,
or empty after trimming), `generateDescription` fails with the generic
`ExternalServiceError` wrapping `Error('No content generated from OpenAI')` —
it never returns a `GeneratedDescription`. -/
theorem generateDescription_empty_response_malformed (productData : Product)
    (options : GenerationOptions) (c : Option String)
    (h : emptyContent c = true) :
    generateDescription productData options (.response c)
      = .error malformedResponseError := by
  cases c with
  | none => rfl
  | some s =>
    have hs : jsTrim s = "" := by simpa [emptyContent] using h
    simp [generateDescription, hs]

/-- C2 witness: a whitespace-only upstream content. -/
theorem generateDescription_empty_response_malformed_witness :
    emptyContent (some "   ") = true ∧
    generateDescription wProduct {} (.response (some "   "))
      = .error malformedResponseError :=
  ⟨by decide,
   generateDescription_empty_response_malformed wProduct {} (some "   ") (by decide)⟩

/-- C3: the results array of `batchGenerateDescriptions` is exactly the
per-item outcomes in input order (whole chunk arrays appended at the barrier),
so the productId at index i is the id of the i-th input product. -/
theorem batchGenerate_results_input_order
    (gen : Product → Except ExternalServiceError GeneratedDescription)
    (products : List Product) :
    (batchGenerateDescriptions gen products).results = products.map (itemOutcome gen) ∧
    (batchGenerateDescriptions gen products).results.map (fun r => r.productId)
      = products.map (fun p => p.id) := by
  have h := batchResults_eq_map gen products
  refine ⟨h, ?_⟩
  rw [h, List.map_map]
  exact List.map_congr_left (fun p _ => itemOutcome_productId gen p)

/-- C6: a per-item generation failure is caught inside the batch loop and
recorded in that item's outcome entry with `success = false` and the error
message; every other item's outcome is still its own generation attempt, and
the batch function is total (it never raises). -/
theorem batchGenerate_item_failure_recorded
    (gen : Product → Except ExternalServiceError GeneratedDescription)
    (products : List Product) (i : Nat) (e : ExternalServiceError)
    (hi : i < products.length)
    (hgen : gen products[i] = .error e) :
    (batchGenerateDescriptions gen products).results[i]? =
      some { productId := products[i].id, success := false
             description := none, error := some e.fullMessage } ∧
    ∀ j : Nat, (batchGenerateDescriptions gen products).results[j]? =
      products[j]?.map (itemOutcome gen) := by
  have hres := batchResults_eq_map gen products
  constructor
  · rw [hres, List.getElem?_map, List.getElem?_eq_getElem hi]
    simp [itemOutcome, hgen]
  · intro j
    rw [hres, List.getElem?_map]

/-- C6 witness: in a two-product batch whose oracle fails exactly on `p1`, the
first outcome records the failure and the second is the second product's own
attempt. -/
theorem batchGenerate_item_failure_recorded_witness :
    (batchGenerateDescriptions wGenFailFirst wProducts2).results[0]? =
      some { productId := "p1", success := false, description := none
             error := some wErr.fullMessage } ∧
    (batchGenerateDescriptions wGenFailFirst wProducts2).results[1]? =
      wProducts2[1]?.map (itemOutcome wGenFailFirst) := by
  have h := batchGenerate_item_failure_recorded wGenFailFirst wProducts2 0 wErr
    (by decide) (by rfl)
  exact ⟨h.1, h.2 1⟩

/-- C4 counterexample: when the Keywords Used section is missing but the
request options carry keywords, `parseResponse` falls back to those request
keywords, not to the empty list. -/
theorem parseResponse_keywords_fallback_refuted :
    findSection kwLabel "Great shoes for running.".toList = none ∧
    (parseResponse "Great shoes for running."
        { keywords := some ["running shoes"] }).keywords = ["running shoes"] ∧
    (["running shoes"] : List String) ≠ [] := by
  exact ⟨by decide, by decide, by decide⟩

/-- C4 (amended): for every response text, each labeled section that is not
found falls back — the raw response text for the content, the request
options' keywords (or the empty list when none were given) for the keywords,
and `undefined` for the three optional scalar fields. -/
theorem parseResponse_missing_section_fallbacks (content : String)
    (options : GenerationOptions) :
    (findSection descLabel content.toList = none →
      (parseResponse content options).content = content) ∧
    (findSection kwLabel content.toList = none →
      (parseResponse content options).keywords = options.keywords.getD []) ∧
    (findSeoScore seoLabel content.toList = none →
      (parseResponse content options).seoScore = none) ∧
    (findSection metaLabel content.toList = none →
      (parseResponse content options).metaDescription = none) ∧
    (findSection titleLabel content.toList = none →
      (parseResponse content options).titleTag = none) := by
  refine ⟨fun h => ?_, fun h => ?_, fun h => ?_, fun h => ?_, fun h => ?_⟩ <;>
    (simp only [String.toList] at h; simp [parseResponse, h])

/-- C4 witness: a plain response without any labeled section, with request
keywords present. -/
theorem parseResponse_missing_section_fallbacks_witness :
    (parseResponse "A plain response text" { keywords := some ["k1"] }).content
      = "A plain response text" ∧
    (parseResponse "A plain response text" { keywords := some ["k1"] }).keywords
      = (some ["k1"] : Option (List String)).getD [] ∧
    (parseResponse "A plain response text" { keywords := some ["k1"] }).seoScore = none ∧
    (parseResponse "A plain response text" { keywords := some ["k1"] }).metaDescription = none ∧
    (parseResponse "A plain response text" { keywords := some ["k1"] }).titleTag = none := by
  have h := parseResponse_missing_section_fallbacks "A plain response text"
    { keywords := some ["k1"] }
  exact ⟨h.1 (by decide), h.2.1 (by decide), h.2.2.1 (by decide),
         h.2.2.2.1 (by decide), h.2.2.2.2 (by decide)⟩

/-- C5 counterexample: `'toString'` is absent from the static three-key price
table, yet `pricing['toString']` is the truthy inherited
`Object.prototype.toString`, the `|| pricing['gpt-4']` fallback is skipped,
and the arithmetic on its undefined `.input`/`.output` yields `NaN` — not the
`'gpt-4'` value. -/
theorem calculateCost_unknown_model_refuted :
    openAIPricing "toString" = .inherited ∧
    calculateCost 1000 "toString" = none ∧
    calculateCost 1000 "toString" ≠ calculateCost 1000 "gpt-4" := by
  refine ⟨rfl, rfl, ?_⟩
  simp [calculateCost, openAIPricing, objectProtoKeys]

/-- C5 (amended): `calculateCost(1000, 'gpt-4')` is exactly 0.039, and for
every token count a model name on which the lookup is `undefined` (absent from
the static table and not an inherited `Object.prototype` property name)
computes the same cost as `'gpt-4'`; a model name colliding with an inherited
`Object.prototype` property skips the fallback and yields `NaN` (no numeric
result). -/
theorem calculateCost_gpt4_value_and_unknown_model :
    calculateCost 1000 "gpt-4" = some (39/1000) ∧
    (∀ (tokenCount : ℚ) (model : String), openAIPricing model = .undefined →
      calculateCost tokenCount model = calculateCost tokenCount "gpt-4") ∧
    (∀ (tokenCount : ℚ) (model : String), openAIPricing model = .inherited →
      calculateCost tokenCount model = none) := by
  refine ⟨?_, ?_, ?_⟩
  · have h7 : (1000 : ℚ) * (7/10) = ((700 : ℤ) : ℚ) := by norm_num
    have h3 : (1000 : ℚ) * (3/10) = ((300 : ℤ) : ℚ) := by norm_num
    rw [calculateCost, h7, h3, jsMathCeil_intCast, jsMathCeil_intCast]
    norm_num [openAIPricing]
  · intro tokenCount model h
    have hg : openAIPricing "gpt-4" = .own (3/100, 6/100) := rfl
    simp [calculateCost, h, hg]
  · intro tokenCount model h
    simp [calculateCost, h]

/-- C5 witness: the exact value; the fallback at the undefined model name
`'o1-mini'` with 750 tokens; the NaN outcome at the prototype-key model name
`'valueOf'`. -/
theorem calculateCost_gpt4_value_and_unknown_model_witness :
    calculateCost 1000 "gpt-4" = some (39/1000) ∧
    openAIPricing "o1-mini" = .undefined ∧
    calculateCost 750 "o1-mini" = calculateCost 750 "gpt-4" ∧
    calculateCost 750 "valueOf" = none :=
  ⟨calculateCost_gpt4_value_and_unknown_model.1, by decide,
   calculateCost_gpt4_value_and_unknown_model.2.1 750 "o1-mini" (by decide),
   calculateCost_gpt4_value_and_unknown_model.2.2 750 "valueOf" (by decide)⟩

/-- C7: when signature verification fails, `StripeService.verifyWebhook`
returns null and `ShopifyService.verifyWebhook` returns false, and the
(spec-modelled) webhook handlers leave the local mirror unchanged and reject
the call. -/
theorem webhook_invalid_signature_rejected :
    (∀ (constructEvent : String → String → String → Except String StripeEvent)
       (applyEvent : StripeEvent → SubscriptionMirror → SubscriptionMirror)
       (webhookSecret payload signature err : String) (state : SubscriptionMirror),
       constructEvent payload signature webhookSecret = .error err →
       stripeVerifyWebhook constructEvent webhookSecret payload signature = none ∧
       handleStripeWebhook constructEvent applyEvent webhookSecret state payload signature
         = (state, false)) ∧
    (∀ (hmacSha256Base64 : String → String → String)
       (applyPayload : String → SubscriptionMirror → SubscriptionMirror)
       (secret rawBody signature : String) (state : SubscriptionMirror),
       hmacSha256Base64 secret rawBody ≠ signature →
       shopifyVerifyWebhook hmacSha256Base64 rawBody signature secret = false ∧
       handleShopifyWebhook hmacSha256Base64 applyPayload secret state rawBody signature
         = (state, false)) := by
  constructor
  · intro ce ae sec pl sig err st h
    refine ⟨?_, ?_⟩
    · simp [stripeVerifyWebhook, h]
    · simp [handleStripeWebhook, stripeVerifyWebhook, h]
  · intro hm ap sec rb sig st h
    have hb : (hm sec rb == sig) = false := beq_eq_false_iff_ne.mpr h
    refine ⟨?_, ?_⟩
    · simp [shopifyVerifyWebhook, hb]
    · simp [handleShopifyWebhook, shopifyVerifyWebhook, hb]

/-- C7 witness: a throwing `constructEvent` and a mismatched HMAC digest, with
apply functions that would visibly overwrite the mirror if ever invoked. -/
theorem webhook_invalid_signature_rejected_witness :
    handleStripeWebhook wConstructEventFail wApplyEvent "whsec" wMirror
      "payload-json" "t=1,v1=bad" = (wMirror, false) ∧
    handleShopifyWebhook wHmac wApplyPayload "sec" wMirror "raw-body" "wrong-digest"
      = (wMirror, false) := by
  have h := webhook_invalid_signature_rejected
  exact ⟨(h.1 wConstructEventFail wApplyEvent "whsec" "payload-json" "t=1,v1=bad"
            "signature mismatch" wMirror rfl).2,
         (h.2 wHmac wApplyPayload "sec" "raw-body" "wrong-digest" wMirror (by decide)).2⟩

/-- C9 counterexample: the plan string `'toString'` is outside
basic/pro/enterprise, yet `planFeatures['toString']` is the truthy inherited
`Object.prototype.toString`, `|| []` keeps it, and
`userFeatures.includes(feature)` throws a TypeError — the request is not
rejected with 403 `FEATURE_NOT_AVAILABLE`. -/
theorem requireFeature_unknown_plan_refuted :
    planFeaturesTable "toString" = .inherited ∧
    requireFeature "bulkGeneration" (some wProtoUser) = .thrown "TypeError" ∧
    (MwOutcome.thrown "TypeError") ≠ .respond 403 "FEATURE_NOT_AVAILABLE" := by
  refine ⟨rfl, rfl, by decide⟩

/-- C9 (amended): the middleware's own static feature table admits a
basic-plan user to `bulkGeneration` (even though
`config.plans.basic.features.bulkGeneration` is false); a plan string outside
basic/pro/enterprise that is not an inherited `Object.prototype` property name
is rejected with 403 `FEATURE_NOT_AVAILABLE` for every feature; a plan string
colliding with an inherited `Object.prototype` property makes the middleware
throw a TypeError instead. -/
theorem requireFeature_basic_bulkGeneration_admitted :
    configPlansBasicFeatures.bulkGeneration = false ∧
    (∀ u : AuthUser, u.plan = "basic" →
      requireFeature "bulkGeneration" (some u) = .next) ∧
    (∀ (u : AuthUser) (feature : String),
      u.plan ≠ "basic" → u.plan ≠ "pro" → u.plan ≠ "enterprise" →
      objectProtoKeys.contains u.plan = false →
      requireFeature feature (some u) = .respond 403 "FEATURE_NOT_AVAILABLE") ∧
    (∀ (u : AuthUser) (feature : String),
      planFeaturesTable u.plan = .inherited →
      requireFeature feature (some u) = .thrown "TypeError") := by
  refine ⟨rfl, ?_, ?_, ?_⟩
  · intro u hu
    simp [requireFeature, planFeaturesTable, hu]
  · intro u feature h1 h2 h3 h4
    simp at h4
    simp [requireFeature, planFeaturesTable, h1, h2, h3, h4]
  · intro u feature h
    simp [requireFeature, h]

/-- C9 witness: a basic-plan user passes the bulk-generation gate; a user with
plan `'free'` is rejected even for a feature every known plan has; a user with
plan `'toString'` makes the middleware throw. -/
theorem requireFeature_basic_bulkGeneration_admitted_witness :
    requireFeature "bulkGeneration" (some wBasicUser) = .next ∧
    requireFeature "seoOptimization" (some wFreeUser)
      = .respond 403 "FEATURE_NOT_AVAILABLE" ∧
    requireFeature "bulkGeneration" (some wProtoUser) = .thrown "TypeError" := by
  have h := requireFeature_basic_bulkGeneration_admitted
  exact ⟨h.2.1 wBasicUser rfl,
         h.2.2.1 wFreeUser "seoOptimization" (by decide) (by decide) (by decide) (by decide),
         h.2.2.2 wProtoUser "bulkGeneration" (by decide)⟩

/-- C10: whenever the Redis INCR underlying `rateLimiter.check` throws, the
check returns true — rate limiting fails open on backend error. -/
theorem rateLimiterCheck_allows_on_incr_error (err : String)
    (expireResult : Except String Bool) (limit : Int) :
    rateLimiterCheck (.error err) expireResult limit = true := rfl

/-- C8: every response body built by `errorHandler` carries the error, code,
timestamp, path and method fields (details exactly when the rewritten error
has them, the stack exactly when NODE_ENV is development and a stack exists),
and an unrecognized error with no statusCode/code of its own maps to HTTP 500
with code INTERNAL_ERROR. -/
theorem errorHandler_body_contract (nodeEnv now : String) (req : ReqInfo)
    (error : HandlerError) :
    ((errorHandler nodeEnv now req error).2.lookup "error"
        = some (jsOrStr (customErrorOf error).message "Something went wrong") ∧
     (errorHandler nodeEnv now req error).2.lookup "code"
        = some (jsOrStrOpt (customErrorOf error).code "INTERNAL_ERROR") ∧
     (errorHandler nodeEnv now req error).2.lookup "timestamp" = some now ∧
     (errorHandler nodeEnv now req error).2.lookup "path" = some req.path ∧
     (errorHandler nodeEnv now req error).2.lookup "method" = some req.method ∧
     (errorHandler nodeEnv now req error).2.lookup "details"
        = (customErrorOf error).details ∧
     (errorHandler nodeEnv now req error).2.lookup "stack"
        = (if nodeEnv = "development" then error.stack else none)) ∧
    (UnrecognizedError error →
      (errorHandler nodeEnv now req error).1 = 500 ∧
      (errorHandler nodeEnv now req error).2.lookup "code" = some "INTERNAL_ERROR") := by
  have hb : (errorHandler nodeEnv now req error).2
      = [("error", jsOrStr (customErrorOf error).message "Something went wrong"),
         ("code", jsOrStrOpt (customErrorOf error).code "INTERNAL_ERROR"),
         ("timestamp", now), ("path", req.path), ("method", req.method)]
        ++ reqIdPart req ++ detailsPart (customErrorOf error)
        ++ stackPart nodeEnv error
        ++ suggPart (jsOrNat (customErrorOf error).statusCode 500) := rfl
  have hlcode : (errorHandler nodeEnv now req error).2.lookup "code"
      = some (jsOrStrOpt (customErrorOf error).code "INTERNAL_ERROR") := by
    rw [hb]
    simp [lookup_append, List.lookup]
  have hldetails : (errorHandler nodeEnv now req error).2.lookup "details"
      = (customErrorOf error).details := by
    rw [hb]
    cases hcd : (customErrorOf error).details with
    | none =>
      simp [lookup_append, List.lookup, reqIdPart_lookup_ne, detailsPart_lookup,
            stackPart_lookup_ne, suggPart_lookup_ne, hcd]
    | some d =>
      simp [lookup_append, List.lookup, reqIdPart_lookup_ne, detailsPart_lookup, hcd]
  have hlstack : (errorHandler nodeEnv now req error).2.lookup "stack"
      = (if nodeEnv = "development" then error.stack else none) := by
    rw [hb]
    by_cases hdev : nodeEnv = "development"
    · cases hst : error.stack <;>
        simp [lookup_append, List.lookup, reqIdPart_lookup_ne, detailsPart_lookup_ne,
              stackPart_lookup, suggPart_lookup_ne, hdev, hst]
    · simp [lookup_append, List.lookup, reqIdPart_lookup_ne, detailsPart_lookup_ne,
            stackPart_lookup, suggPart_lookup_ne, hdev]
  refine ⟨⟨?_, hlcode, ?_, ?_, ?_, hldetails, hlstack⟩, ?_⟩
  · rw [hb]; simp [lookup_append, List.lookup]
  · rw [hb]; simp [lookup_append, List.lookup]
  · rw [hb]; simp [lookup_append, List.lookup]
  · rw [hb]; simp [lookup_append, List.lookup]
  · intro hu
    obtain ⟨hp, hv, hs, hn1, hn2, hn3, hn4, hsc, hco⟩ := hu
    have hc : customErrorOf error
        = { statusCode := none, code := none
            message := error.message, details := error.details } := by
      simp [customErrorOf, hp, hv, hs, hn1, hn2, hn3, hn4, hsc, hco]
    constructor
    · have h1 : (errorHandler nodeEnv now req error).1
          = jsOrNat (customErrorOf error).statusCode 500 := rfl
      rw [h1, hc]
      rfl
    · rw [hlcode, hc]
      rfl

/-- C8 witness: an unrecognized plain error in development mode, with a stack
attached. -/
theorem errorHandler_body_contract_witness :
    (errorHandler "development" "ts0" wReq wPlainError).2.lookup "error" = some "boom" ∧
    (errorHandler "development" "ts0" wReq wPlainError).2.lookup "timestamp" = some "ts0" ∧
    (errorHandler "development" "ts0" wReq wPlainError).2.lookup "path" = some "/api/products" ∧
    (errorHandler "development" "ts0" wReq wPlainError).2.lookup "stack" = some "trace" ∧
    (errorHandler "development" "ts0" wReq wPlainError).1 = 500 ∧
    (errorHandler "development" "ts0" wReq wPlainError).2.lookup "code"
      = some "INTERNAL_ERROR" := by
  have h := errorHandler_body_contract "development" "ts0" wReq wPlainError
  have hu : UnrecognizedError wPlainError := by
    refine ⟨rfl, rfl, rfl, ?_, ?_, ?_, ?_, rfl, rfl⟩ <;> decide
  exact ⟨h.1.1, h.1.2.2.1, h.1.2.2.2.1, h.1.2.2.2.2.2.2, (h.2 hu).1, (h.2 hu).2⟩
